import Mathlib

/-!
Shallow embedding of the MongoDB → ListMonk synchronization pipeline.

The orchestrator is the shell script `scripts/run_mongo_import.sh`. It is
modelled here as a pure function `runMongoImport` from the run's inputs
(whether the `.env` file exists, the Telegram variables, the output and exit
status of the extraction step, whether the processed CSV exists, the login
curl exit status, the import response body, the exit status of the
timestamp-update step) and the persistent state (checkpoint value, cookie-jar
file, ages of existing log files) to the run's observable outcome (exit code,
log events, notifications, which steps were attempted, resulting state).

The Python half of the pipeline (`mongo_to_listmonk.py`) is not under `src/`;
the one place its behaviour matters (what `--update-timestamp` writes) is
modelled from the spec and marked as such.
-/

/-- One log event of the run: `stamped msg` is a line written through the
script's `log()` helper (which prefixes a timestamp and appends to the
run-scoped log file), `output s` is raw command output tee'd or redirected
into the same log file without a timestamp. -/
inductive LogEvent where
  | stamped (msg : String)
  | output (s : String)
deriving DecidableEq, Repr

/-- One Telegram notification; one constructor per
`send_telegram_notification` call site in `run_mongo_import.sh`, carrying the
data interpolated into that site's message template. -/
inductive Notification where
  | csvMissingFailure
  | noNewUsers
  | authFailure (usersFound : Nat)
  | importFailure (usersFound : Nat)
  | importSuccess (usersImported : Nat)
deriving DecidableEq, Repr

/-- The inputs a single run of `run_mongo_import.sh` reacts to. `extractStatus`
is the exit status of `mongo_to_listmonk.py --extract-only` (the script stores
it in `EXTRACT_STATUS`), `extractOutput` its combined stdout/stderr,
`loginStatus` the exit status of the login `curl`, `sessionCookie` the
credential the login writes into the cookie jar, `importResponse` the body
returned by the import endpoint, `updateStatus` the exit status of
`mongo_to_listmonk.py --update-timestamp` and `newCheckpoint` the timestamp
that step would persist. -/
structure RunInput where
  envFileExists : Bool
  botToken : String
  chatId : String
  topicId : String
  extractStatus : Nat
  extractOutput : String
  processedCsvExists : Bool
  loginStatus : Nat
  loginOutput : String
  sessionCookie : String
  importResponse : String
  updateStatus : Nat
  newCheckpoint : Nat
deriving DecidableEq, Repr

/-- Persistent state surviving across runs: the checkpoint
(`last_sync_timestamp` in the tracking collection), the contents of the
cookie-jar file `temp/listmonk_cookies.txt` (`none` = file absent), and the
ages in days of the existing `mongo_import_*.log` files. -/
structure SyncState where
  checkpoint : Nat
  cookieJar : Option String
  logAges : List Nat
deriving DecidableEq, Repr

/-- Observable outcome of one run: process exit code, log events in order,
notifications sent in order, whether the authentication / upload /
timestamp-update / log-cleanup steps were executed, the credential presented
with the upload request (if any), and the resulting persistent state. -/
structure RunResult where
  exitCode : Nat
  logs : List LogEvent
  notifications : List Notification
  authAttempted : Bool
  uploadAttempted : Bool
  uploadCookie : Option String
  updateInvoked : Bool
  cleanupInvoked : Bool
  state : SyncState
deriving DecidableEq, Repr

/-- Leading decimal digits of a character list: accumulated value and the
remainder after the digit run (helper for the `USER_COUNT` parse). -/
def digitsAux : List Char → Nat → Nat × List Char
  | c :: cs, acc =>
    if c.isDigit then digitsAux cs (acc * 10 + (c.toNat - 48)) else (acc, c :: cs)
  | [], acc => (acc, [])

/-- Match the grep pattern `Found [0-9]* new users` at the head of the list
(with at least one digit), returning the number. Mirrors
`grep -o "Found [0-9]* new users" | awk '\x7bprint $2\x7d'` in the script. -/
def matchFoundAt (cs : List Char) : Option Nat :=
  if ("Found ".data).isPrefixOf cs then
    match cs.drop 6 with
    | c :: rest =>
      if c.isDigit then
        let p := digitsAux (c :: rest) 0
        if (" new users".data).isPrefixOf p.2 then some p.1 else none
      else none
    | [] => none
  else none

/-- First occurrence of the `Found N new users` pattern anywhere in the
character list. -/
def findFoundCount : List Char → Option Nat
  | [] => none
  | c :: cs =>
    match matchFoundAt (c :: cs) with
    | some n => some n
    | none => findFoundCount cs

/-- `USER_COUNT` as the script computes it: the number from the first
`Found N new users` line of the extraction output, defaulting to `0` when no
such line is present (`if [ -z "$USER_COUNT" ]; then USER_COUNT=0; fi`). -/
def userCountOf (out : String) : Nat :=
  (findFoundCount out.data).getD 0

/-- Does `hay` contain `needle` as a contiguous substring? Mirrors the bash
pattern test `[[ "$IMPORT_RESPONSE" == *"error"* ]]`. -/
def hasSubstr (needle : List Char) : List Char → Bool
  | [] => decide (needle = [])
  | c :: cs => needle.isPrefixOf (c :: cs) || hasSubstr needle cs

/-- The script's success test on the import response: the response body
contains the substring `error`. -/
def importResponseHasError (resp : String) : Bool :=
  hasSubstr "error".data resp.data

/-- Modelled from the spec: the effect of `mongo_to_listmonk.py
--update-timestamp` (the Python half of the pipeline is not under `src/`).
Per the spec's Checkpoint Store contract, `set(timestamp)` overwrites the
stored last-sync timestamp; a timestamp-update process that fails leaves the
stored checkpoint as it was. -/
def applyTimestampUpdate (updateStatus newCheckpoint old : Nat) : Nat :=
  if updateStatus = 0 then newCheckpoint else old

/-- The run of `run_mongo_import.sh`, step for step:
1. abort (exit 1) when `.env` is missing, with a plain `echo`;
2. abort (exit 1) when a Telegram variable is empty, with a plain `echo`;
3. log start and extraction, run the extractor, parse `USER_COUNT` from its
   output (`EXTRACT_STATUS` is captured but never inspected afterwards);
4. when the processed CSV is absent and `USER_COUNT > 0`: log an error,
   notify, exit 1;
5. when `USER_COUNT = 0`: log, send the no-new-users notification, exit 0;
6. otherwise authenticate: `rm -f` the cookie jar, login via curl; nonzero
   curl status: log an error, notify with the found count, exit 1;
7. upload the CSV with the fresh cookie; if the response body contains
   `error`: log an error, notify with the found count, exit 1;
8. otherwise run the timestamp update (status not inspected), send the
   success notification, delete log files older than 7 days, log completion,
   exit 0. -/
def runMongoImport (i : RunInput) (s : SyncState) : RunResult :=
  if i.envFileExists = false then
    { exitCode := 1
      logs := [.output "Error: .env file not found"]
      notifications := []
      authAttempted := false, uploadAttempted := false, uploadCookie := none
      updateInvoked := false, cleanupInvoked := false, state := s }
  else if i.botToken = "" ∨ i.chatId = "" ∨ i.topicId = "" then
    { exitCode := 1
      logs := [.output "Error: Required environment variables not set. Please check your .env file."]
      notifications := []
      authAttempted := false, uploadAttempted := false, uploadCookie := none
      updateInvoked := false, cleanupInvoked := false, state := s }
  else
    let userCount := userCountOf i.extractOutput
    let logs0 : List LogEvent :=
      [.stamped "Starting MongoDB to ListMonk import process",
       .stamped "Extracting users from MongoDB",
       .output i.extractOutput]
    if i.processedCsvExists = false ∧ 0 < userCount then
      { exitCode := 1
        logs := logs0 ++ [.stamped "Error: CSV file was not created. Aborting import."]
        notifications := [.csvMissingFailure]
        authAttempted := false, uploadAttempted := false, uploadCookie := none
        updateInvoked := false, cleanupInvoked := false, state := s }
    else if userCount = 0 then
      { exitCode := 0
        logs := logs0 ++ [.stamped "No new users found. Nothing to import."]
        notifications := [.noNewUsers]
        authAttempted := false, uploadAttempted := false, uploadCookie := none
        updateInvoked := false, cleanupInvoked := false, state := s }
    else
      let logs1 := logs0 ++
        [.stamped "Importing users into ListMonk",
         .stamped "Authenticating with ListMonk",
         .output i.loginOutput]
      if i.loginStatus ≠ 0 then
        { exitCode := 1
          logs := logs1 ++ [.stamped "Error: Failed to authenticate with ListMonk"]
          notifications := [.authFailure userCount]
          authAttempted := true, uploadAttempted := false, uploadCookie := none
          updateInvoked := false, cleanupInvoked := false
          state := { s with cookieJar := none } }
      else
        let jar : Option String := some i.sessionCookie
        let logs2 := logs1 ++
          [.stamped "Uploading CSV file to ListMonk", .output i.importResponse]
        if importResponseHasError i.importResponse then
          { exitCode := 1
            logs := logs2 ++ [.stamped "Error: Import failed"]
            notifications := [.importFailure userCount]
            authAttempted := true, uploadAttempted := true, uploadCookie := jar
            updateInvoked := false, cleanupInvoked := false
            state := { s with cookieJar := jar } }
        else
          { exitCode := 0
            logs := logs2 ++
              [.stamped "Import completed successfully",
               .stamped "Updating last sync timestamp",
               .stamped "MongoDB to ListMonk import process completed"]
            notifications := [.importSuccess userCount]
            authAttempted := true, uploadAttempted := true, uploadCookie := jar
            updateInvoked := true, cleanupInvoked := true
            state := { checkpoint := applyTimestampUpdate i.updateStatus i.newCheckpoint s.checkpoint
                       cookieJar := jar
                       logAges := s.logAges.filter (fun a => decide (a ≤ 7)) } }

/-- The startup configuration checks pass: `.env` exists and the three
Telegram variables are nonempty. -/
def configOk (i : RunInput) : Prop :=
  i.envFileExists = true ∧ ¬(i.botToken = "" ∨ i.chatId = "" ∨ i.topicId = "")

/-- The run takes the `USER_COUNT = 0` branch (after passing configuration). -/
def noNewRecordsPath (i : RunInput) : Prop :=
  configOk i ∧ userCountOf i.extractOutput = 0

/-- The run reaches the upload call: configuration passes, the parsed user
count is positive, the processed CSV exists, and the login curl exited 0. -/
def reachesUpload (i : RunInput) : Prop :=
  configOk i ∧ 0 < userCountOf i.extractOutput ∧
    i.processedCsvExists = true ∧ i.loginStatus = 0

/-- The run takes the confirmed-success branch: it reaches the upload and
the import response contains no `error` substring. -/
def successPath (i : RunInput) : Prop :=
  reachesUpload i ∧ importResponseHasError i.importResponse = false

instance (i : RunInput) : Decidable (configOk i) := by
  unfold configOk; infer_instance

instance (i : RunInput) : Decidable (noNewRecordsPath i) := by
  unfold noNewRecordsPath; infer_instance

instance (i : RunInput) : Decidable (reachesUpload i) := by
  unfold reachesUpload; infer_instance

instance (i : RunInput) : Decidable (successPath i) := by
  unfold successPath; infer_instance

example : userCountOf "Found 5 new users" = 5 := by decide

example : userCountOf "Connecting...\nFound 12 new users\nDone" = 12 := by decide

example : userCountOf "pymongo.errors.ServerSelectionTimeoutError: no reachable servers" = 0 := by decide

example : importResponseHasError "http 500 internal server error" = true := by decide

example : importResponseHasError "ok" = false := by decide

/-- A persistent state with a checkpoint of 50, a stale cookie jar left by an
earlier run, and two log files aged 1 and 10 days. -/
def sampleState : SyncState :=
  { checkpoint := 50, cookieJar := some "stale=1", logAges := [1, 10] }

/-- A run input on which every stage succeeds. -/
def successInput : RunInput :=
  { envFileExists := true, botToken := "bot", chatId := "chat", topicId := "topic"
    extractStatus := 0, extractOutput := "Found 5 new users"
    processedCsvExists := true, loginStatus := 0, loginOutput := ""
    sessionCookie := "session=abc123", importResponse := "Import started"
    updateStatus := 0, newCheckpoint := 100 }

/-- A run input where the extraction step fails (source unreachable): the
extractor exits 1 and prints a traceback with no `Found N new users` line, so
no CSV is produced. -/
def extractFailureInput : RunInput :=
  { successInput with
    extractStatus := 1,
    extractOutput := "pymongo.errors.ServerSelectionTimeoutError: no reachable servers",
    processedCsvExists := false }

/-- A run input where the `.env` file is missing. -/
def missingEnvInput : RunInput :=
  { successInput with envFileExists := false }

/-- A run input where the login curl fails (exit status 7). -/
def authFailureInput : RunInput :=
  { successInput with loginStatus := 7 }

/-- A run input where extraction finds zero new users. -/
def zeroUsersInput : RunInput :=
  { successInput with extractOutput := "Found 0 new users" }

/-- A run input where extraction reports 5 users but the processed CSV is
absent. -/
def csvMissingInput : RunInput :=
  { successInput with processedCsvExists := false }

/-- A run input where the import endpoint answers with an error body. -/
def importErrorInput : RunInput :=
  { successInput with importResponse := "error: invalid list id" }

/-- C1: the checkpoint after a run is unchanged or advanced; the
timestamp-update step is invoked exactly on the confirmed-success path, and
whenever it is not invoked (every failure path and the no-new-records path)
the checkpoint is exactly what it was before the run. -/
theorem checkpoint_updated_only_on_confirmed_success (i : RunInput) (s : SyncState)
    (h : s.checkpoint ≤ i.newCheckpoint) :
    ((runMongoImport i s).updateInvoked = true ↔ successPath i) ∧
    ((runMongoImport i s).updateInvoked = false →
      (runMongoImport i s).state.checkpoint = s.checkpoint) ∧
    s.checkpoint ≤ (runMongoImport i s).state.checkpoint := by
  simp only [runMongoImport, applyTimestampUpdate, successPath, reachesUpload, configOk]
  split_ifs <;> simp_all <;> omega

/-- Witness for C1 at a concrete successful run. -/
theorem checkpoint_updated_only_on_confirmed_success_witness :
    sampleState.checkpoint ≤ successInput.newCheckpoint ∧
    (((runMongoImport successInput sampleState).updateInvoked = true ↔
        successPath successInput) ∧
      ((runMongoImport successInput sampleState).updateInvoked = false →
        (runMongoImport successInput sampleState).state.checkpoint =
          sampleState.checkpoint) ∧
      sampleState.checkpoint ≤
        (runMongoImport successInput sampleState).state.checkpoint) :=
  ⟨by decide,
   checkpoint_updated_only_on_confirmed_success successInput sampleState (by decide)⟩

/-- C2: for a run that reaches the upload, an `error` indicator in the import
response body fails the run — failure notification, no checkpoint update,
exit code 1 — regardless of the transport outcome; otherwise the run commits
the timestamp update and sends the success notification with exit code 0. -/
theorem import_error_indicator_fails_run (i : RunInput) (s : SyncState)
    (h : reachesUpload i) :
    (importResponseHasError i.importResponse = true →
      (runMongoImport i s).exitCode = 1 ∧
      (runMongoImport i s).notifications =
        [.importFailure (userCountOf i.extractOutput)] ∧
      (runMongoImport i s).updateInvoked = false ∧
      (runMongoImport i s).state.checkpoint = s.checkpoint) ∧
    (importResponseHasError i.importResponse = false →
      (runMongoImport i s).exitCode = 0 ∧
      (runMongoImport i s).updateInvoked = true ∧
      (runMongoImport i s).notifications =
        [.importSuccess (userCountOf i.extractOutput)]) := by
  obtain ⟨⟨henv, htok⟩, hcnt, hcsv, hlogin⟩ := h
  simp only [runMongoImport]
  split_ifs <;> simp_all

/-- Witness for C2 at a concrete run whose import response is an error body. -/
theorem import_error_indicator_fails_run_witness :
    reachesUpload importErrorInput ∧
    importResponseHasError importErrorInput.importResponse = true ∧
    ((runMongoImport importErrorInput sampleState).exitCode = 1 ∧
      (runMongoImport importErrorInput sampleState).notifications =
        [.importFailure (userCountOf importErrorInput.extractOutput)] ∧
      (runMongoImport importErrorInput sampleState).updateInvoked = false ∧
      (runMongoImport importErrorInput sampleState).state.checkpoint =
        sampleState.checkpoint) :=
  ⟨by decide, by decide,
   (import_error_indicator_fails_run importErrorInput sampleState (by decide)).1
     (by decide)⟩

/-- C3: contrary to the claim, a run whose extraction step fails (nonzero
extractor exit status, no `Found N new users` line in its output) is not
fatal: `EXTRACT_STATUS` is never inspected, `USER_COUNT` defaults to 0, and
the run takes the no-new-users branch — informational notification and exit
code 0 — instead of a failure notification and a nonzero exit. The checkpoint
is untouched, as the claim says. -/
theorem extraction_failure_treated_as_no_new_users :
    extractFailureInput.extractStatus ≠ 0 ∧
    (runMongoImport extractFailureInput sampleState).exitCode = 0 ∧
    (runMongoImport extractFailureInput sampleState).notifications =
      [Notification.noNewUsers] ∧
    (runMongoImport extractFailureInput sampleState).state.checkpoint =
      sampleState.checkpoint := by
  decide

/-- C4: a run that reaches authentication and whose login curl fails exits 1,
attempts no upload, leaves the checkpoint untouched, never invokes the
timestamp update, and sends exactly the failure notification carrying the
count of users found by extraction. -/
theorem auth_failure_aborts_without_upload (i : RunInput) (s : SyncState)
    (h : configOk i ∧ 0 < userCountOf i.extractOutput ∧
      i.processedCsvExists = true ∧ i.loginStatus ≠ 0) :
    (runMongoImport i s).exitCode = 1 ∧
    (runMongoImport i s).uploadAttempted = false ∧
    (runMongoImport i s).notifications =
      [.authFailure (userCountOf i.extractOutput)] ∧
    (runMongoImport i s).state.checkpoint = s.checkpoint ∧
    (runMongoImport i s).updateInvoked = false := by
  obtain ⟨⟨henv, htok⟩, hcnt, hcsv, hlogin⟩ := h
  simp only [runMongoImport]
  split_ifs <;> simp_all

/-- Witness for C4 at a concrete run whose login curl exits 7. -/
theorem auth_failure_aborts_without_upload_witness :
    (configOk authFailureInput ∧ 0 < userCountOf authFailureInput.extractOutput ∧
      authFailureInput.processedCsvExists = true ∧ authFailureInput.loginStatus ≠ 0) ∧
    ((runMongoImport authFailureInput sampleState).exitCode = 1 ∧
      (runMongoImport authFailureInput sampleState).uploadAttempted = false ∧
      (runMongoImport authFailureInput sampleState).notifications =
        [.authFailure (userCountOf authFailureInput.extractOutput)] ∧
      (runMongoImport authFailureInput sampleState).state.checkpoint =
        sampleState.checkpoint ∧
      (runMongoImport authFailureInput sampleState).updateInvoked = false) :=
  ⟨by decide, auth_failure_aborts_without_upload authFailureInput sampleState (by decide)⟩

/-- C5: a run that passes configuration and parses zero new users
short-circuits: the no-new-users notification is sent, exit code is 0, no
authentication or upload is attempted, the checkpoint is unchanged. -/
theorem zero_new_records_short_circuits (i : RunInput) (s : SyncState)
    (hc : configOk i) (h0 : userCountOf i.extractOutput = 0) :
    (runMongoImport i s).exitCode = 0 ∧
    (runMongoImport i s).notifications = [.noNewUsers] ∧
    (runMongoImport i s).authAttempted = false ∧
    (runMongoImport i s).uploadAttempted = false ∧
    (runMongoImport i s).state.checkpoint = s.checkpoint ∧
    (runMongoImport i s).updateInvoked = false := by
  obtain ⟨henv, htok⟩ := hc
  simp only [runMongoImport]
  split_ifs <;> simp_all

/-- Witness for C5 at a concrete run whose extractor prints
`Found 0 new users`. -/
theorem zero_new_records_short_circuits_witness :
    configOk zeroUsersInput ∧ userCountOf zeroUsersInput.extractOutput = 0 ∧
    ((runMongoImport zeroUsersInput sampleState).exitCode = 0 ∧
      (runMongoImport zeroUsersInput sampleState).notifications = [.noNewUsers] ∧
      (runMongoImport zeroUsersInput sampleState).authAttempted = false ∧
      (runMongoImport zeroUsersInput sampleState).uploadAttempted = false ∧
      (runMongoImport zeroUsersInput sampleState).state.checkpoint =
        sampleState.checkpoint ∧
      (runMongoImport zeroUsersInput sampleState).updateInvoked = false) :=
  ⟨by decide, by decide,
   zero_new_records_short_circuits zeroUsersInput sampleState (by decide) (by decide)⟩

/-- Is this log event a line written through `log()` (i.e. timestamped)? -/
def isStampedLine : LogEvent → Bool
  | .stamped _ => true
  | .output _ => false

/-- Is this log event a timestamped error line (a `log()` call whose message
starts with `Error`)? -/
def isStampedErrorLine : LogEvent → Bool
  | .stamped m => ("Error".data).isPrefixOf m.data
  | .output _ => false

/-- C6 counterexample: the claim demands exactly one timestamped log line and
exactly one notification on every failure path, including missing
configuration at startup — but the missing-`.env` run exits 1 with zero
notifications and zero timestamped log lines (only a plain `echo`). -/
theorem config_failure_is_silent :
    (runMongoImport missingEnvInput sampleState).exitCode = 1 ∧
    (runMongoImport missingEnvInput sampleState).notifications = [] ∧
    (runMongoImport missingEnvInput sampleState).logs.filter isStampedLine = [] := by
  decide

/-- C6 amended: every failure path reached after the startup configuration
checks produces exactly one timestamped error log line and exactly one
notification; the startup configuration failures exit 1 with a plain echo —
no timestamped log line and no notification. -/
theorem failure_paths_notify_exactly_once (i : RunInput) (s : SyncState) :
    (configOk i → (runMongoImport i s).exitCode = 1 →
      (runMongoImport i s).notifications.length = 1 ∧
      ((runMongoImport i s).logs.filter isStampedErrorLine).length = 1) ∧
    (¬configOk i →
      (runMongoImport i s).exitCode = 1 ∧
      (runMongoImport i s).notifications = [] ∧
      (runMongoImport i s).logs.filter isStampedLine = []) := by
  simp only [runMongoImport, configOk]
  split_ifs <;> simp_all <;> rfl

/-- Witness for C6 (amended) at a concrete run failing after configuration:
the auth-failure run notifies exactly once and logs exactly one timestamped
error line. -/
theorem failure_paths_notify_exactly_once_witness :
    configOk authFailureInput ∧
    (runMongoImport authFailureInput sampleState).exitCode = 1 ∧
    ((runMongoImport authFailureInput sampleState).notifications.length = 1 ∧
      ((runMongoImport authFailureInput sampleState).logs.filter
        isStampedErrorLine).length = 1) :=
  ⟨by decide, by decide,
   (failure_paths_notify_exactly_once authFailureInput sampleState).1
     (by decide) (by decide)⟩

/-- C7: the process exit code is 0 exactly on the confirmed-success path and
the zero-new-records path, and 1 otherwise; in particular when extraction
reports a positive user count but the processed CSV is absent the run exits 1
with the CSV-missing failure notification and no upload (nor authentication)
attempted. -/
theorem exit_code_zero_iff_success_or_no_new (i : RunInput) (s : SyncState) :
    ((runMongoImport i s).exitCode = 0 ∨ (runMongoImport i s).exitCode = 1) ∧
    ((runMongoImport i s).exitCode = 0 ↔ (successPath i ∨ noNewRecordsPath i)) ∧
    (configOk i → i.processedCsvExists = false → 0 < userCountOf i.extractOutput →
      (runMongoImport i s).exitCode = 1 ∧
      (runMongoImport i s).notifications = [.csvMissingFailure] ∧
      (runMongoImport i s).uploadAttempted = false ∧
      (runMongoImport i s).authAttempted = false) := by
  simp only [runMongoImport, successPath, reachesUpload, noNewRecordsPath, configOk]
  split_ifs <;> simp_all <;> omega

/-- Witness for C7 at a concrete run with 5 users reported and no CSV. -/
theorem exit_code_zero_iff_success_or_no_new_witness :
    configOk csvMissingInput ∧ csvMissingInput.processedCsvExists = false ∧
    0 < userCountOf csvMissingInput.extractOutput ∧
    ((runMongoImport csvMissingInput sampleState).exitCode = 1 ∧
      (runMongoImport csvMissingInput sampleState).notifications =
        [.csvMissingFailure] ∧
      (runMongoImport csvMissingInput sampleState).uploadAttempted = false ∧
      (runMongoImport csvMissingInput sampleState).authAttempted = false) :=
  ⟨by decide, by decide, by decide,
   (exit_code_zero_iff_success_or_no_new csvMissingInput sampleState).2.2
     (by decide) (by decide) (by decide)⟩

/-- The same run input with the exit status of the timestamp-update step
replaced. -/
def setUpdateStatus (i : RunInput) (u : Nat) : RunInput :=
  { i with updateStatus := u }

/-- C8: the exit status of the timestamp-update step is never inspected — a
run on the confirmed-success path exits 0 and sends the success notification
whatever that status is, and when the update step fails the checkpoint stays
where it was even though the process reports success. -/
theorem commit_stage_ignores_update_status (i : RunInput) (s : SyncState)
    (u : Nat) (h : successPath i) :
    (runMongoImport (setUpdateStatus i u) s).exitCode = 0 ∧
    (runMongoImport (setUpdateStatus i u) s).notifications =
      [.importSuccess (userCountOf i.extractOutput)] ∧
    (u ≠ 0 →
      (runMongoImport (setUpdateStatus i u) s).state.checkpoint = s.checkpoint) := by
  obtain ⟨⟨⟨henv, htok⟩, hcnt, hcsv, hlogin⟩, herr⟩ := h
  simp only [runMongoImport, setUpdateStatus, applyTimestampUpdate]
  split_ifs <;> simp_all

/-- Witness for C8: a concrete successful run whose timestamp-update step
exits 1 still exits 0 with a success notification, and the checkpoint is left
at its old value. -/
theorem commit_stage_ignores_update_status_witness :
    successPath successInput ∧
    ((runMongoImport (setUpdateStatus successInput 1) sampleState).exitCode = 0 ∧
      (runMongoImport (setUpdateStatus successInput 1) sampleState).notifications =
        [.importSuccess (userCountOf successInput.extractOutput)] ∧
      (1 ≠ 0 →
        (runMongoImport (setUpdateStatus successInput 1) sampleState).state.checkpoint =
          sampleState.checkpoint)) :=
  ⟨by decide, commit_stage_ignores_update_status successInput sampleState 1 (by decide)⟩

/-- A persistent state holding one log file aged 10 days (older than the
7-day retention window). -/
def oldLogsState : SyncState :=
  { checkpoint := 50, cookieJar := none, logAges := [10] }

/-- C9 counterexample: the claim says old logs are deleted on each run
regardless of outcome, but a no-new-users run (exit 0) terminates before the
cleanup line — the 10-day-old log file survives. -/
theorem no_new_users_run_skips_log_cleanup :
    (runMongoImport zeroUsersInput oldLogsState).exitCode = 0 ∧
    (runMongoImport zeroUsersInput oldLogsState).cleanupInvoked = false ∧
    (runMongoImport zeroUsersInput oldLogsState).state.logAges = [10] := by
  decide

/-- C9 amended: the 7-day log cleanup runs exactly on the confirmed-success
path — the only path reaching the end of the script — where log files older
than 7 days are removed; every other path leaves the log directory as it
was. Timestamped stage lines are appended to the run-scoped log on every run
that passes configuration. -/
theorem log_cleanup_only_on_success (i : RunInput) (s : SyncState) :
    ((runMongoImport i s).cleanupInvoked = true ↔ successPath i) ∧
    (successPath i →
      (runMongoImport i s).state.logAges =
        s.logAges.filter (fun a => decide (a ≤ 7))) ∧
    (¬successPath i → (runMongoImport i s).state.logAges = s.logAges) ∧
    (configOk i →
      LogEvent.stamped "Starting MongoDB to ListMonk import process" ∈
        (runMongoImport i s).logs) := by
  simp only [runMongoImport, successPath, reachesUpload, configOk]
  split_ifs <;> simp_all
  omega

/-- Witness for C9 (amended): on a concrete successful run over log files
aged 1 and 10 days, only the 10-day-old file is removed. -/
theorem log_cleanup_only_on_success_witness :
    successPath successInput ∧
    (runMongoImport successInput sampleState).state.logAges =
      sampleState.logAges.filter (fun a => decide (a ≤ 7)) :=
  ⟨by decide,
   (log_cleanup_only_on_success successInput sampleState).2.1 (by decide)⟩

/-- C10 counterexample: the claim says the session credential is released by
run end and never persisted beyond the run, but after a successful run the
cookie-jar file still holds the session credential. -/
theorem cookie_jar_persists_after_run_end :
    (runMongoImport successInput sampleState).exitCode = 0 ∧
    (runMongoImport successInput sampleState).state.cookieJar =
      some "session=abc123" := by
  decide

/-- C10 amended: the cookie-jar file is left on disk after the run, but each
run `rm -f`s the jar before authenticating, so the upload always presents the
credential acquired in the same run — no run ever uses a previous run's
credential — and after a run the jar holds nothing or only this run's
credential; runs that never authenticate do not touch the jar. -/
theorem session_credential_fresh_per_run (i : RunInput) (s : SyncState) :
    ((runMongoImport i s).uploadAttempted = true →
      (runMongoImport i s).uploadCookie = some i.sessionCookie) ∧
    ((runMongoImport i s).authAttempted = false →
      (runMongoImport i s).state.cookieJar = s.cookieJar) ∧
    ((runMongoImport i s).authAttempted = true →
      (runMongoImport i s).state.cookieJar = none ∨
      (runMongoImport i s).state.cookieJar = some i.sessionCookie) := by
  simp only [runMongoImport]
  split_ifs <;> simp_all

/-- Witness for C10 (amended): a concrete run starting with a stale
credential in the jar uploads with the credential acquired in this run. -/
theorem session_credential_fresh_per_run_witness :
    sampleState.cookieJar = some "stale=1" ∧
    (runMongoImport successInput sampleState).uploadAttempted = true ∧
    (runMongoImport successInput sampleState).uploadCookie =
      some successInput.sessionCookie :=
  ⟨by decide, by decide,
   (session_credential_fresh_per_run successInput sampleState).1 (by decide)⟩
